import Mathlib

/-!
Shallow embedding of `src/dynamic_inflation.py` (dual-asset staking APY
calculator) in Lean 4, with theorems checking the natural-language
specification against the code.

Modelling conventions:
* Python `float` values are embedded as exact rationals `ℚ` (the spec's
  boundary and algebraic claims are stated over exact arithmetic).
* Fallible Python code is embedded in `Except PyErr`: an unguarded
  division by zero is the raw arithmetic fault `PyErr.zeroDivision`
  (Python's `ZeroDivisionError`), an explicit `raise ValueError(msg)` is
  `PyErr.valueError msg`, reading an attribute that was never assigned is
  `PyErr.attrError name` (Python's `AttributeError`), and falling through
  all branches of `calculate_gamma` with `gamma` unassigned would be
  `PyErr.unboundLocal "gamma"`.
* `StakingData` carries the six declared dataclass fields plus the two
  dynamically-assigned attributes `split_BBN` / `split_BTC` as `Option ℚ`
  (absent = `none`), because `calculate_APYs` assigns them onto the
  caller's object.  `calculate_APYs` is embedded state-passing style: it
  returns the `APYResults` together with the post-call state of the
  `StakingData` argument.
-/

instance {ε α : Type} [DecidableEq ε] [DecidableEq α] : DecidableEq (Except ε α) :=
  fun x y =>
    match x, y with
    | .ok a, .ok b => decidable_of_iff (a = b) (by simp)
    | .ok _, .error _ => isFalse (by simp)
    | .error _, .ok _ => isFalse (by simp)
    | .error e, .error f => decidable_of_iff (e = f) (by simp)

/-- Python runtime errors that the embedded code can raise. -/
inductive PyErr where
  | zeroDivision : PyErr
  | valueError : String → PyErr
  | attrError : String → PyErr
  | unboundLocal : String → PyErr
deriving DecidableEq, Repr

/-- The `StakingData` dataclass: six declared fields, plus the two
attributes that `calculate_APYs` assigns dynamically (`none` = the
attribute has not been assigned). -/
structure StakingData where
  FYAP : ℚ
  BBN_TS : ℚ
  BTC_Stake : ℚ
  BBN_SR : ℚ
  Price_BBN : ℚ
  Price_BTC : ℚ
  split_BBN : Option ℚ := none
  split_BTC : Option ℚ := none
deriving DecidableEq, Repr

/-- The `APYResults` dataclass. -/
structure APYResults where
  BBN_APY : ℚ
  BTC_APY : ℚ
deriving DecidableEq, Repr

/-- Python division: raises `ZeroDivisionError` on a zero denominator. -/
def pydiv (a b : ℚ) : Except PyErr ℚ :=
  if b = 0 then .error .zeroDivision else .ok (a / b)

/-- Python attribute read of a dynamically-assigned attribute: raises
`AttributeError` when the attribute was never assigned. -/
def pyattr (o : Option ℚ) (name : String) : Except PyErr ℚ :=
  match o with
  | some q => .ok q
  | none => .error (.attrError name)

/-- `BBNBTCStakingAPYCalculator.calculate_beta`:
`beta = staking_data.BBN_SR / 0.4`. -/
def calculate_beta (staking_data : StakingData) : ℚ :=
  staking_data.BBN_SR / 0.4

/-- `BBNBTCStakingAPYCalculator.calculate_gamma`: the three-branch
`if/elif/elif` on `beta`; if no branch fired, the `return gamma` would
raise `UnboundLocalError` (unreachable over a linear order). -/
def calculate_gamma (beta : ℚ) : Except PyErr ℚ :=
  if beta < 1 then .ok ((1 / 4) / (3 / 4))
  else if 1 ≤ beta ∧ beta ≤ 2.4 then .ok (0.4 / 0.6)
  else if beta > 2.4 then .ok (0.5 / 0.5)
  else .error (.unboundLocal "gamma")

/-- `BBNBTCStakingAPYCalculator.calculate_splits`: guarded solve of
`Split_BBN / Split_BTC = gamma`, `Split_BBN + Split_BTC = 1`;
returns the pair `(Split_BBN, Split_BTC)`. -/
def calculate_splits (gamma : ℚ) : Except PyErr (ℚ × ℚ) :=
  if gamma + 1 = 0 then
    .error (.valueError "Invalid Gamma value leading to division by zero.")
  else
    let Split_BTC := 1 / (gamma + 1)
    let Split_BBN := 1 - Split_BTC
    .ok (Split_BBN, Split_BTC)

/-- `BBNBTCStakingAPYCalculator.calculate_BBN_APY`:
`(FYAP * split_BBN / BBN_SR) * 100`, where `split_BBN` is read from the
`staking_data` object and the division by `BBN_SR` is unguarded. -/
def calculate_BBN_APY (staking_data : StakingData) : Except PyErr ℚ := do
  let split_BBN ← pyattr staking_data.split_BBN "split_BBN"
  let q ← pydiv (staking_data.FYAP * split_BBN) staking_data.BBN_SR
  return q * 100

/-- `BBNBTCStakingAPYCalculator.calculate_BTC_APY`:
`BBN_FDV = BBN_TS * Price_BBN`;
`Amount_of_BTC = FYAP * split_BTC * BBN_FDV / Price_BTC`;
`BTC_APY = (Amount_of_BTC / (BTC_Stake / Price_BTC)) * 100`. -/
def calculate_BTC_APY (staking_data : StakingData) : Except PyErr ℚ := do
  let BBN_FDV := staking_data.BBN_TS * staking_data.Price_BBN
  let split_BTC ← pyattr staking_data.split_BTC "split_BTC"
  let Amount_of_BTC ← pydiv (staking_data.FYAP * split_BTC * BBN_FDV)
      staking_data.Price_BTC
  let denom ← pydiv staking_data.BTC_Stake staking_data.Price_BTC
  let q ← pydiv Amount_of_BTC denom
  return q * 100

/-- `BBNBTCStakingAPYCalculator.calculate_APYs`: the pipeline
beta → gamma → splits, then the two assignments
`staking_data.split_BBN = Split_BBN` / `staking_data.split_BTC = Split_BTC`
(mutating the caller's object), then both APYs.  Returns the
`APYResults` paired with the post-call state of `staking_data`. -/
def calculate_APYs (staking_data : StakingData) :
    Except PyErr (APYResults × StakingData) := do
  let beta := calculate_beta staking_data
  let gamma ← calculate_gamma beta
  let splits ← calculate_splits gamma
  let sd2 := { staking_data with
                 split_BBN := some splits.1, split_BTC := some splits.2 }
  let bbn ← calculate_BBN_APY sd2
  let btc ← calculate_BTC_APY sd2
  return (⟨bbn, btc⟩, sd2)

/-- `simulate_staking_apy`: constructs the calculator and delegates to
`calculate_APYs` (inheriting its mutation of the argument). -/
def simulate_staking_apy (staking_data : StakingData) :
    Except PyErr (APYResults × StakingData) :=
  calculate_APYs staking_data

/-! ### Helper lemmas -/

/-- Total normal form of the gamma step function (the source's three
branches simplified to their exact rational values). -/
def gammaVal (beta : ℚ) : ℚ :=
  if beta < 1 then 1 / 3 else if beta ≤ 2.4 then 2 / 3 else 1

lemma calculate_gamma_eq (beta : ℚ) : calculate_gamma beta = .ok (gammaVal beta) := by
  unfold calculate_gamma gammaVal
  rcases lt_or_le beta 1 with h1 | h1
  · rw [if_pos h1, if_pos h1]
    norm_num
  · have h1n : ¬ beta < 1 := not_lt.2 h1
    rw [if_neg h1n, if_neg h1n]
    rcases le_or_lt beta 2.4 with h2 | h2
    · rw [if_pos ⟨h1, h2⟩, if_pos h2]
      norm_num
    · have h2n : ¬ beta ≤ 2.4 := not_le.2 h2
      have hcn : ¬ (1 ≤ beta ∧ beta ≤ 2.4) := fun hc => h2n hc.2
      rw [if_neg hcn, if_pos h2, if_neg h2n]
      norm_num

lemma gammaVal_mem (beta : ℚ) :
    gammaVal beta = 1 / 3 ∨ gammaVal beta = 2 / 3 ∨ gammaVal beta = 1 := by
  unfold gammaVal
  split_ifs <;> simp

lemma gammaVal_pos (beta : ℚ) : 0 < gammaVal beta := by
  rcases gammaVal_mem beta with h | h | h <;> rw [h] <;> norm_num

lemma calculate_splits_of_pos (g : ℚ) (h : 0 < g) :
    calculate_splits g = .ok (1 - 1 / (g + 1), 1 / (g + 1)) := by
  have hne : g + 1 ≠ 0 := by linarith
  simp [calculate_splits, hne]

/-- The state of the `StakingData` object right after `calculate_APYs`
has assigned the two split attributes onto it. -/
def stagedData (sd : StakingData) : StakingData :=
  { sd with
      split_BBN := some (1 - 1 / (gammaVal (calculate_beta sd) + 1)),
      split_BTC := some (1 / (gammaVal (calculate_beta sd) + 1)) }

/-- Normal form of the whole pipeline: gamma always computes
`gammaVal`, the splits guard never fires, and the two splits are
assigned onto the staking data before the two APY calls. -/
lemma calculate_APYs_eq (sd : StakingData) :
    calculate_APYs sd =
      (do
        let bbn ← calculate_BBN_APY (stagedData sd)
        let btc ← calculate_BTC_APY (stagedData sd)
        return (⟨bbn, btc⟩, stagedData sd)) := by
  have h1 := calculate_gamma_eq (calculate_beta sd)
  have h2 := calculate_splits_of_pos (gammaVal (calculate_beta sd)) (gammaVal_pos _)
  simp only [calculate_APYs, h1, h2, Except.bind, bind, stagedData]

/-- Evaluation of `calculate_BBN_APY` when the split attribute is
assigned and the staking rate is nonzero. -/
lemma calculate_BBN_APY_of_some (sd : StakingData) (q : ℚ)
    (hq : sd.split_BBN = some q) (h : sd.BBN_SR ≠ 0) :
    calculate_BBN_APY sd = .ok (sd.FYAP * q / sd.BBN_SR * 100) := by
  simp [calculate_BBN_APY, pyattr, hq, pydiv, h, Except.bind, bind, Except.pure, pure]

/-- Evaluation of `calculate_BTC_APY` when the split attribute is
assigned and both `Price_BTC` and `BTC_Stake` are nonzero. -/
lemma calculate_BTC_APY_of_some (sd : StakingData) (q : ℚ)
    (hq : sd.split_BTC = some q) (hp : sd.Price_BTC ≠ 0) (hs : sd.BTC_Stake ≠ 0) :
    calculate_BTC_APY sd =
      .ok (sd.FYAP * q * (sd.BBN_TS * sd.Price_BBN) / sd.Price_BTC /
        (sd.BTC_Stake / sd.Price_BTC) * 100) := by
  have h4 : sd.BTC_Stake / sd.Price_BTC ≠ 0 := div_ne_zero hs hp
  simp [calculate_BTC_APY, pyattr, hq, pydiv, hp, h4, Except.bind, bind,
    Except.pure, pure]

/-! ### Claims -/

/-- C1: on the snapshot `FYAP = 0.08`, `BBN_TS = 1e10`,
`BTC_Stake = 2e9`, `BBN_SR = 0.2`, `Price_BBN = 0.1`,
`Price_BTC = 75000`, the pipeline produces `beta = 0.5`,
`gamma = 1/3`, `Split_BBN = 0.25`, `Split_BTC = 0.75`,
`BBN_APY = 10.0` and `BTC_APY = 3.0`. -/
theorem concrete_scenario :
    calculate_beta ⟨0.08, 10000000000, 2000000000, 0.2, 0.1, 75000, none, none⟩ = 0.5 ∧
    calculate_gamma 0.5 = .ok (1 / 3) ∧
    calculate_splits (1 / 3) = .ok (1 / 4, 3 / 4) ∧
    simulate_staking_apy ⟨0.08, 10000000000, 2000000000, 0.2, 0.1, 75000, none, none⟩ =
      .ok (⟨10, 3⟩,
        ⟨0.08, 10000000000, 2000000000, 0.2, 0.1, 75000, some (1 / 4), some (3 / 4)⟩) := by
  refine ⟨by norm_num [calculate_beta], by norm_num [calculate_gamma], ?_, ?_⟩
  · norm_num [calculate_splits]
  · norm_num [simulate_staking_apy, calculate_APYs, calculate_beta, calculate_gamma,
      calculate_splits, calculate_BBN_APY, calculate_BTC_APY, pydiv, pyattr,
      Except.bind, bind, Except.pure, pure]

/-- C2: `calculate_gamma` is the exact three-tier step function:
`1/3` for `beta < 1`, `2/3` for `1 ≤ beta ≤ 2.4` (both boundaries
inclusive), `1` for `beta > 2.4`. -/
theorem gamma_step (beta : ℚ) :
    (beta < 1 → calculate_gamma beta = .ok (1 / 3)) ∧
    (1 ≤ beta ∧ beta ≤ 2.4 → calculate_gamma beta = .ok (2 / 3)) ∧
    (beta > 2.4 → calculate_gamma beta = .ok 1) := by
  rw [calculate_gamma_eq]
  unfold gammaVal
  refine ⟨fun h => ?_, fun h => ?_, fun h => ?_⟩
  · simp [h]
  · have h1 : ¬ beta < 1 := not_lt.2 h.1
    simp [h1, h.2]
  · have h1 : ¬ beta < 1 := by rw [not_lt]; linarith
    have h2 : ¬ beta ≤ 2.4 := not_le.2 h
    simp [h1, h2]

theorem gamma_step_witness :
    calculate_gamma 0.5 = .ok (1 / 3) ∧ calculate_gamma 1 = .ok (2 / 3) ∧
    calculate_gamma 2.4 = .ok (2 / 3) ∧ calculate_gamma 3 = .ok 1 :=
  ⟨(gamma_step 0.5).1 (by norm_num),
   (gamma_step 1).2.1 (by norm_num),
   (gamma_step 2.4).2.1 (by norm_num),
   (gamma_step 3).2.2 (by norm_num)⟩

/-- C3: for every `gamma > -1`, `calculate_splits` returns a pair
`(Split_BBN, Split_BTC)` summing to `1` with ratio
`Split_BBN / Split_BTC = gamma` (both exactly, hence within `1e-9`);
for the three policy gammas `1/3`, `2/3`, `1` both shares lie in
`[0, 1]`. -/
theorem splits_spec (gamma : ℚ) (h : -1 < gamma) :
    ∃ nS bS, calculate_splits gamma = .ok (nS, bS) ∧ nS + bS = 1 ∧
      nS / bS = gamma ∧
      (gamma = 1 / 3 ∨ gamma = 2 / 3 ∨ gamma = 1 →
        0 ≤ nS ∧ nS ≤ 1 ∧ 0 ≤ bS ∧ bS ≤ 1) := by
  have hne : gamma + 1 ≠ 0 := by linarith
  have hpos : 0 < gamma + 1 := by linarith
  refine ⟨1 - 1 / (gamma + 1), 1 / (gamma + 1), by simp [calculate_splits, hne],
    by ring, ?_, ?_⟩
  · field_simp
  · rintro (rfl | rfl | rfl) <;> norm_num

theorem splits_spec_witness :
    (-1 : ℚ) < 1 / 3 ∧
    ∃ nS bS, calculate_splits (1 / 3) = .ok (nS, bS) ∧ nS + bS = 1 ∧
      nS / bS = 1 / 3 ∧
      ((1 : ℚ) / 3 = 1 / 3 ∨ (1 : ℚ) / 3 = 2 / 3 ∨ (1 : ℚ) / 3 = 1 →
        0 ≤ nS ∧ nS ≤ 1 ∧ 0 ≤ bS ∧ bS ≤ 1) :=
  ⟨by norm_num, splits_spec (1 / 3) (by norm_num)⟩

/-- C4: `calculate_splits` raises the typed `ValueError` (the
invalid-policy error) exactly when `gamma + 1 = 0`, without ever
reaching the division; for `gamma + 1 ≠ 0` it succeeds. -/
theorem splits_guard (gamma : ℚ) :
    (gamma + 1 = 0 →
      calculate_splits gamma =
        .error (.valueError "Invalid Gamma value leading to division by zero.")) ∧
    (gamma + 1 ≠ 0 → ∃ p, calculate_splits gamma = .ok p) := by
  constructor
  · intro h
    simp [calculate_splits, h]
  · intro h
    exact ⟨(1 - 1 / (gamma + 1), 1 / (gamma + 1)), by simp [calculate_splits, h]⟩

theorem splits_guard_witness :
    calculate_splits (-1) =
      .error (.valueError "Invalid Gamma value leading to division by zero.") ∧
    ∃ p, calculate_splits 0 = .ok p :=
  ⟨(splits_guard (-1)).1 (by norm_num), (splits_guard 0).2 (by norm_num)⟩

/-- C5 counterexample: on a snapshot with `BBN_SR = 0` the pipeline
fails with the raw arithmetic fault `ZeroDivisionError`, not with a
typed UndefinedRatio / invalid-input error (no such error kind exists
anywhere in the code). -/
theorem zero_ratio_typed_error_cex :
    calculate_BBN_APY
        ⟨0.08, 10000000000, 2000000000, 0, 0.1, 75000, some (1 / 4), some (3 / 4)⟩ =
      .error .zeroDivision ∧
    calculate_APYs ⟨0.08, 10000000000, 2000000000, 0, 0.1, 75000, none, none⟩ =
      .error .zeroDivision := by
  constructor
  · norm_num [calculate_BBN_APY, pyattr, pydiv, Except.bind, bind, Except.pure, pure]
  · norm_num [calculate_APYs, calculate_beta, calculate_gamma, calculate_splits,
      calculate_BBN_APY, calculate_BTC_APY, pydiv, pyattr, Except.bind, bind,
      Except.pure, pure]

/-- C5 (amended): whenever `BBN_SR = 0` (and the split attribute has
been assigned, as the pipeline always does before this call),
`calculate_BBN_APY` propagates the raw `ZeroDivisionError`; it neither
returns a value nor raises a typed UndefinedRatio error. -/
theorem zero_ratio_raw_fault (sd : StakingData) (h : sd.BBN_SR = 0) (q : ℚ)
    (hq : sd.split_BBN = some q) :
    calculate_BBN_APY sd = .error .zeroDivision := by
  simp [calculate_BBN_APY, pyattr, hq, pydiv, h, Except.bind, bind]

theorem zero_ratio_raw_fault_witness :
    calculate_BBN_APY
        ⟨0.08, 10000000000, 2000000000, 0, 0.1, 75000, some (1 / 3), some (2 / 3)⟩ =
      .error .zeroDivision :=
  zero_ratio_raw_fault _ rfl (1 / 3) rfl

/-- C6 counterexample: the snapshot with `BBN_SR = -0.5` violates the
ratio domain `[0, 1]`, yet the engine raises no InvalidInput error: the
full pipeline runs and returns a (nonsensical, negative) native APY. -/
theorem eager_validation_cex :
    calculate_APYs ⟨0.08, 10000000000, 2000000000, -0.5, 0.1, 75000, none, none⟩ =
      .ok (⟨-4, 3⟩,
        ⟨0.08, 10000000000, 2000000000, -0.5, 0.1, 75000, some (1 / 4), some (3 / 4)⟩) := by
  norm_num [calculate_APYs, calculate_beta, calculate_gamma, calculate_splits,
    calculate_BBN_APY, calculate_BTC_APY, pydiv, pyattr, Except.bind, bind,
    Except.pure, pure]

/-- C6 (amended): the engine performs no input-domain validation at
all: every snapshot whose three divisors (`BBN_SR`, `BTC_Stake`,
`Price_BTC`) are nonzero — including snapshots violating the
documented domains, e.g. negative ratios, prices or supplies —
completes the whole pipeline and returns a result; no InvalidInput
error kind exists in the code. -/
theorem no_input_validation (sd : StakingData) (h1 : sd.BBN_SR ≠ 0)
    (h2 : sd.BTC_Stake ≠ 0) (h3 : sd.Price_BTC ≠ 0) :
    ∃ r, calculate_APYs sd = .ok r := by
  have hb := calculate_BBN_APY_of_some (stagedData sd)
    (1 - 1 / (gammaVal (calculate_beta sd) + 1)) (by simp [stagedData])
    (by simpa [stagedData] using h1)
  have hc := calculate_BTC_APY_of_some (stagedData sd)
    (1 / (gammaVal (calculate_beta sd) + 1)) (by simp [stagedData])
    (by simpa [stagedData] using h3) (by simpa [stagedData] using h2)
  rw [calculate_APYs_eq, hb, hc]
  exact ⟨_, rfl⟩

theorem no_input_validation_witness :
    ∃ r, calculate_APYs ⟨0.08, 10000000000, 2000000000, -0.5, 0.1, 75000, none, none⟩ =
      .ok r :=
  no_input_validation _ (by norm_num) (by norm_num) (by norm_num)

/-- C7 counterexample: with `FYAP = 0` two snapshots differing only in
`BBN_SR` (`0.1` vs `0.2`, both positive, both in the `beta < 1` gamma
branch) get the same native APY `0`, so the larger ratio does not get a
strictly smaller native APY. -/
theorem native_apy_monotone_cex :
    calculate_APYs ⟨0, 10000000000, 2000000000, 0.1, 0.1, 75000, none, none⟩ =
      .ok (⟨0, 0⟩,
        ⟨0, 10000000000, 2000000000, 0.1, 0.1, 75000, some (1 / 4), some (3 / 4)⟩) ∧
    calculate_APYs ⟨0, 10000000000, 2000000000, 0.2, 0.1, 75000, none, none⟩ =
      .ok (⟨0, 0⟩,
        ⟨0, 10000000000, 2000000000, 0.2, 0.1, 75000, some (1 / 4), some (3 / 4)⟩) ∧
    ¬ ((0 : ℚ) < 0) := by
  refine ⟨?_, ?_, by norm_num⟩ <;>
    norm_num [calculate_APYs, calculate_beta, calculate_gamma, calculate_splits,
      calculate_BBN_APY, calculate_BTC_APY, pydiv, pyattr, Except.bind, bind,
      Except.pure, pure]

/-- C7 (amended): for a strictly positive yield budget `FYAP`, two
snapshots differing only in `BBN_SR` (both ratios positive, both in
the same gamma branch, i.e. with equal `calculate_gamma` outcomes)
give the snapshot with the larger ratio the strictly smaller native
APY. -/
theorem native_apy_monotone (sd : StakingData) (r1 r2 : ℚ) (h0 : 0 < r1)
    (h12 : r1 < r2) (hF : 0 < sd.FYAP)
    (hg : calculate_gamma (calculate_beta { sd with BBN_SR := r1 }) =
      calculate_gamma (calculate_beta { sd with BBN_SR := r2 })) :
    ∃ g sB sT a1 a2,
      calculate_gamma (calculate_beta { sd with BBN_SR := r1 }) = .ok g ∧
      calculate_gamma (calculate_beta { sd with BBN_SR := r2 }) = .ok g ∧
      calculate_splits g = .ok (sB, sT) ∧
      calculate_BBN_APY
          { sd with BBN_SR := r1, split_BBN := some sB, split_BTC := some sT } =
        .ok a1 ∧
      calculate_BBN_APY
          { sd with BBN_SR := r2, split_BBN := some sB, split_BTC := some sT } =
        .ok a2 ∧
      a2 < a1 := by
  set g := gammaVal (calculate_beta { sd with BBN_SR := r1 }) with hgdef
  have hgr2 : calculate_gamma (calculate_beta { sd with BBN_SR := r2 }) = .ok g := by
    rw [← hg, calculate_gamma_eq]
  have hsB : (0 : ℚ) < 1 - 1 / (g + 1) := by
    rcases gammaVal_mem (calculate_beta { sd with BBN_SR := r1 }) with h | h | h <;>
      rw [hgdef, h] <;> norm_num
  refine ⟨g, 1 - 1 / (g + 1), 1 / (g + 1),
    sd.FYAP * (1 - 1 / (g + 1)) / r1 * 100,
    sd.FYAP * (1 - 1 / (g + 1)) / r2 * 100,
    calculate_gamma_eq _, hgr2, calculate_splits_of_pos g (gammaVal_pos _),
    ?_, ?_, ?_⟩
  · exact calculate_BBN_APY_of_some
      ⟨sd.FYAP, sd.BBN_TS, sd.BTC_Stake, r1, sd.Price_BBN, sd.Price_BTC,
        some (1 - 1 / (g + 1)), some (1 / (g + 1))⟩
      (1 - 1 / (g + 1)) rfl h0.ne'
  · exact calculate_BBN_APY_of_some
      ⟨sd.FYAP, sd.BBN_TS, sd.BTC_Stake, r2, sd.Price_BBN, sd.Price_BTC,
        some (1 - 1 / (g + 1)), some (1 / (g + 1))⟩
      (1 - 1 / (g + 1)) rfl (h0.trans h12).ne'
  · have hnum : (0 : ℚ) < sd.FYAP * (1 - 1 / (g + 1)) := mul_pos hF hsB
    have hdiv : sd.FYAP * (1 - 1 / (g + 1)) / r2 <
        sd.FYAP * (1 - 1 / (g + 1)) / r1 :=
      div_lt_div_of_pos_left hnum h0 h12
    exact mul_lt_mul_of_pos_right hdiv (by norm_num)

theorem native_apy_monotone_witness :
    ∃ g sB sT a1 a2,
      calculate_gamma (calculate_beta
        ⟨0.08, 10000000000, 2000000000, 0.1, 0.1, 75000, none, none⟩) = .ok g ∧
      calculate_gamma (calculate_beta
        ⟨0.08, 10000000000, 2000000000, 0.2, 0.1, 75000, none, none⟩) = .ok g ∧
      calculate_splits g = .ok (sB, sT) ∧
      calculate_BBN_APY
          ⟨0.08, 10000000000, 2000000000, 0.1, 0.1, 75000, some sB, some sT⟩ =
        .ok a1 ∧
      calculate_BBN_APY
          ⟨0.08, 10000000000, 2000000000, 0.2, 0.1, 75000, some sB, some sT⟩ =
        .ok a2 ∧
      a2 < a1 :=
  native_apy_monotone ⟨0.08, 10000000000, 2000000000, 0.3, 0.1, 75000, none, none⟩
    0.1 0.2 (by norm_num) (by norm_num) (by norm_num)
    (by norm_num [calculate_beta, calculate_gamma])

/-- Inversion of a successful pipeline run: the returned post-state is
exactly `stagedData sd` and the two APYs are the values of the two APY
calls on that staged state. -/
lemma calculate_APYs_ok_elim (sd : StakingData) (r : APYResults) (sd1 : StakingData)
    (h : calculate_APYs sd = .ok (r, sd1)) :
    sd1 = stagedData sd ∧
      calculate_BBN_APY (stagedData sd) = .ok r.BBN_APY ∧
      calculate_BTC_APY (stagedData sd) = .ok r.BTC_APY := by
  rw [calculate_APYs_eq] at h
  cases hb : calculate_BBN_APY (stagedData sd) with
  | error e =>
    rw [hb] at h
    simp [Except.bind, bind] at h
  | ok bbn =>
    cases hc : calculate_BTC_APY (stagedData sd) with
    | error e =>
      rw [hb, hc] at h
      simp [Except.bind, bind] at h
    | ok btc =>
      rw [hb, hc] at h
      simp only [Except.bind, bind, Except.pure, pure, Except.ok.injEq,
        Prod.mk.injEq] at h
      obtain ⟨hr, hsd⟩ := h
      subst hsd
      subst hr
      exact ⟨rfl, rfl, rfl⟩

/-- C8: the pipeline is deterministic and repeat-safe: in a pure
embedding two calls on equal snapshot values are definitionally equal,
and the substantive content is that a second call on the very same
(now mutated) snapshot object after a successful first call returns
the bit-identical result pair and leaves the object in the same
state. -/
theorem calculate_APYs_repeat (sd : StakingData) (r : APYResults)
    (sd1 : StakingData) (h : calculate_APYs sd = .ok (r, sd1)) :
    calculate_APYs sd1 = .ok (r, sd1) := by
  obtain ⟨hsd1, hb, hc⟩ := calculate_APYs_ok_elim sd r sd1 h
  subst hsd1
  rw [calculate_APYs_eq]
  have hstag : stagedData (stagedData sd) = stagedData sd := rfl
  rw [hstag, hb, hc]
  rfl

theorem calculate_APYs_repeat_witness :
    calculate_APYs
        ⟨0.08, 10000000000, 2000000000, 0.2, 0.1, 75000, some (1 / 4), some (3 / 4)⟩ =
      .ok (⟨10, 3⟩,
        ⟨0.08, 10000000000, 2000000000, 0.2, 0.1, 75000, some (1 / 4), some (3 / 4)⟩) :=
  calculate_APYs_repeat
    ⟨0.08, 10000000000, 2000000000, 0.2, 0.1, 75000, none, none⟩ ⟨10, 3⟩
    ⟨0.08, 10000000000, 2000000000, 0.2, 0.1, 75000, some (1 / 4), some (3 / 4)⟩
    (by norm_num [calculate_APYs, calculate_beta, calculate_gamma, calculate_splits,
      calculate_BBN_APY, calculate_BTC_APY, pydiv, pyattr, Except.bind, bind,
      Except.pure, pure])

/-- C9 counterexample: `calculate_APYs` does not leave the caller's
snapshot unchanged: on the concrete snapshot the post-call object
carries the two new split attributes and differs from the input
object. -/
theorem snapshot_mutation_cex :
    calculate_APYs ⟨0.08, 10000000000, 2000000000, 0.2, 0.1, 75000, none, none⟩ =
      .ok (⟨10, 3⟩,
        ⟨0.08, 10000000000, 2000000000, 0.2, 0.1, 75000, some (1 / 4), some (3 / 4)⟩) ∧
    (⟨0.08, 10000000000, 2000000000, 0.2, 0.1, 75000, some (1 / 4), some (3 / 4)⟩ :
        StakingData) ≠
      ⟨0.08, 10000000000, 2000000000, 0.2, 0.1, 75000, none, none⟩ := by
  constructor
  · norm_num [calculate_APYs, calculate_beta, calculate_gamma, calculate_splits,
      calculate_BBN_APY, calculate_BTC_APY, pydiv, pyattr, Except.bind, bind,
      Except.pure, pure]
  · simp

/-- C9 (amended): a successful `calculate_APYs` call leaves the six
declared fields of the snapshot unchanged, but it does add state to
the caller's object: the post-call snapshot is exactly the input with
the two split attributes assigned. -/
theorem snapshot_frame (sd : StakingData) (r : APYResults) (sd1 : StakingData)
    (h : calculate_APYs sd = .ok (r, sd1)) :
    sd1.FYAP = sd.FYAP ∧ sd1.BBN_TS = sd.BBN_TS ∧ sd1.BTC_Stake = sd.BTC_Stake ∧
      sd1.BBN_SR = sd.BBN_SR ∧ sd1.Price_BBN = sd.Price_BBN ∧
      sd1.Price_BTC = sd.Price_BTC ∧
      ∃ sB sT, sd1 = { sd with split_BBN := some sB, split_BTC := some sT } := by
  obtain ⟨hsd1, -, -⟩ := calculate_APYs_ok_elim sd r sd1 h
  subst hsd1
  refine ⟨rfl, rfl, rfl, rfl, rfl, rfl,
    1 - 1 / (gammaVal (calculate_beta sd) + 1),
    1 / (gammaVal (calculate_beta sd) + 1), rfl⟩

theorem snapshot_frame_witness :
    (0.08 : ℚ) = 0.08 ∧ (10000000000 : ℚ) = 10000000000 ∧
    (2000000000 : ℚ) = 2000000000 ∧ (0.2 : ℚ) = 0.2 ∧ (0.1 : ℚ) = 0.1 ∧
    (75000 : ℚ) = 75000 ∧
    ∃ sB sT,
      (⟨0.08, 10000000000, 2000000000, 0.2, 0.1, 75000, some (1 / 4), some (3 / 4)⟩ :
          StakingData) =
        ⟨0.08, 10000000000, 2000000000, 0.2, 0.1, 75000, some sB, some sT⟩ :=
  snapshot_frame ⟨0.08, 10000000000, 2000000000, 0.2, 0.1, 75000, none, none⟩
    ⟨10, 3⟩
    ⟨0.08, 10000000000, 2000000000, 0.2, 0.1, 75000, some (1 / 4), some (3 / 4)⟩
    (by norm_num [calculate_APYs, calculate_beta, calculate_gamma, calculate_splits,
      calculate_BBN_APY, calculate_BTC_APY, pydiv, pyattr, Except.bind, bind,
      Except.pure, pure])

/-- Closed form of `calculate_BTC_APY`: `Price_BTC` cancels out. -/
lemma calculate_BTC_APY_closed (sd : StakingData) (p q : ℚ) (hp : 0 < p)
    (hs : sd.BTC_Stake ≠ 0) :
    calculate_BTC_APY { sd with Price_BTC := p, split_BTC := some q } =
      .ok (sd.FYAP * q * sd.BBN_TS * sd.Price_BBN / sd.BTC_Stake * 100) := by
  have h := calculate_BTC_APY_of_some
    ⟨sd.FYAP, sd.BBN_TS, sd.BTC_Stake, sd.BBN_SR, sd.Price_BBN, p,
      sd.split_BBN, some q⟩ q rfl hp.ne' hs
  rw [h]
  congr 1
  have hp2 : p ≠ 0 := hp.ne'
  field_simp
  ring

/-- C10: `calculate_BTC_APY` does not depend on `Price_BTC`: for two
snapshots that differ only in a (strictly positive) `Price_BTC`, with
the same assigned bridged split, the BTC APY is identical, and equals
`FYAP * split_BTC * BBN_TS * Price_BBN / BTC_Stake * 100`. -/
theorem btc_apy_price_independent (sd : StakingData) (p1 p2 q : ℚ)
    (h1 : 0 < p1) (h2 : 0 < p2) (hs : sd.BTC_Stake ≠ 0) :
    calculate_BTC_APY { sd with Price_BTC := p1, split_BTC := some q } =
      calculate_BTC_APY { sd with Price_BTC := p2, split_BTC := some q } ∧
    calculate_BTC_APY { sd with Price_BTC := p1, split_BTC := some q } =
      .ok (sd.FYAP * q * sd.BBN_TS * sd.Price_BBN / sd.BTC_Stake * 100) := by
  have e1 := calculate_BTC_APY_closed sd p1 q h1 hs
  have e2 := calculate_BTC_APY_closed sd p2 q h2 hs
  exact ⟨e1.trans e2.symm, e1⟩

theorem btc_apy_price_independent_witness :
    calculate_BTC_APY ⟨0.08, 10000000000, 2000000000, 0.2, 0.1, 75000, none, some (3 / 4)⟩ =
      calculate_BTC_APY ⟨0.08, 10000000000, 2000000000, 0.2, 0.1, 50000, none, some (3 / 4)⟩ ∧
    calculate_BTC_APY ⟨0.08, 10000000000, 2000000000, 0.2, 0.1, 75000, none, some (3 / 4)⟩ =
      .ok (0.08 * (3 / 4) * 10000000000 * 0.1 / 2000000000 * 100) :=
  btc_apy_price_independent ⟨0.08, 10000000000, 2000000000, 0.2, 0.1, 1, none, none⟩
    75000 50000 (3 / 4) (by norm_num) (by norm_num) (by norm_num)
